import Mathlib

/-! ## JS `Map` model: insertion-ordered association list -/

/-- `Map.set`: replace in place if the key exists, else append. -/
def jsMapSet {α : Type} (m : List (String × α)) (k : String) (v : α) :
    List (String × α) :=
  match m with
  | [] => [(k, v)]
  | (k', v') :: rest =>
      if k' = k then (k, v) :: rest else (k', v') :: jsMapSet rest k v

/-- `Map.get`: first (hence unique, under the nodup-keys invariant) binding. -/
def jsMapGet {α : Type} (m : List (String × α)) (k : String) : Option α :=
  match m with
  | [] => none
  | (k', v) :: rest => if k' = k then some v else jsMapGet rest k

/-- `Math.round` (JS rounds half toward +∞). -/
def jsRound (q : ℚ) : ℤ := ⌊q + 1 / 2⌋

/-! ## Interpolation/Animation engine
    From the final FlightMap revision in src/unnamed/part_001 (lines 963-1368):
    refs previousPositions, targetPositions, interpolationStartTime, the
    animateFlights loop, createFeature, and the snapshot-ingest useEffect. -/

/-- A validFlights element (post-filter its latitude/longitude/heading are
    genuine numbers; true_track may be absent). -/
structure FrontFlight where
  icao24 : String
  longitude : ℚ
  latitude : ℚ
  true_track : Option ℚ
  heading : ℚ
deriving DecidableEq

/-- An entry of previousPositions: the interpolation origin. -/
structure Pos where
  longitude : ℚ
  latitude : ℚ
  heading : ℚ
deriving DecidableEq

/-- An entry of targetPositions: the spread of the incoming flight with its
    heading field overridden (fields not read by the engine are omitted). -/
structure TargetPos where
  icao24 : String
  longitude : ℚ
  latitude : ℚ
  true_track : Option ℚ
  heading : ℚ
deriving DecidableEq

/-- Building a target entry: spread of flight with
    heading = typeof flight.true_track === 'number' ? flight.true_track : 0. -/
def mkTargetPos (f : FrontFlight) : TargetPos :=
  { icao24 := f.icao24, longitude := f.longitude, latitude := f.latitude,
    true_track := f.true_track, heading := f.true_track.getD 0 }

/-- INTERPOLATION_DURATION = 15000 ms. -/
def INTERPOLATION_DURATION : ℚ := 15000

/-- Wraparound normalization of a heading difference:
    if (headingDiff > 180) headingDiff -= 360;
    if (headingDiff < -180) headingDiff += 360. -/
def normalizeHeadingDiff (d : ℚ) : ℚ :=
  let d1 := if d > 180 then d - 360 else d
  if d1 < -180 then d1 + 360 else d1

/-- Heading interpolation as written (identically) in animateFlights and in
    the ingest effect: previous.heading + normalized diff * progress.
    Note there is no final reduction of the result into [0, 360). -/
def interpolateHeading (prevH targetH progress : ℚ) : ℚ :=
  prevH + normalizeHeadingDiff (targetH - prevH) * progress

/-- Linear position/heading interpolation between a previous and a target
    entry, as computed by both animateFlights and the ingest effect. -/
def lerpPos (p : Pos) (t : TargetPos) (progress : ℚ) : Pos :=
  { longitude := p.longitude + (t.longitude - p.longitude) * progress,
    latitude := p.latitude + (t.latitude - p.latitude) * progress,
    heading := interpolateHeading p.heading t.heading progress }

/-- Interpolation progress:
    elapsed = now - (interpolationStartTime.current || now);
    progress = Math.min(elapsed / INTERPOLATION_DURATION, 1). -/
def progressAt (startTime : Option ℚ) (now : ℚ) : ℚ :=
  min ((now - startTime.getD now) / INTERPOLATION_DURATION) 1

/-- A GeoJSON feature as built by createFeature (properties not read by the
    claims are omitted; heading is the display rotation). -/
structure Feature where
  icao24 : String
  lng : ℚ
  lat : ℚ
  true_track : Option ℚ
  heading : ℚ
deriving DecidableEq

/-- createFeature: actualHeading prefers the numeric true_track over the
    (possibly interpolated) heading field, then subtracts 90 degrees to align
    the airplane emoji glyph. -/
def createFeature (t : TargetPos) (lng lat : ℚ) : Feature :=
  let actualHeading := match t.true_track with
    | some x => x
    | none => t.heading
  { icao24 := t.icao24, lng := lng, lat := lat, true_track := t.true_track,
    heading := actualHeading - 90 }

/-- One pass of the animateFlights loop over targetPositions: for each target,
    if there is no previous entry or progress has reached 1, render the target
    directly; otherwise render the linear interpolation. -/
def animateTick (prev : List (String × Pos)) (targets : List (String × TargetPos))
    (startTime : Option ℚ) (now : ℚ) : List Feature :=
  let progress := progressAt startTime now
  targets.map (fun kv =>
    let t := kv.2
    match jsMapGet prev kv.1 with
    | none => createFeature t t.longitude t.latitude
    | some p =>
        if 1 ≤ progress then createFeature t t.longitude t.latitude
        else
          createFeature { t with heading := interpolateHeading p.heading t.heading progress }
            (p.longitude + (t.longitude - p.longitude) * progress)
            (p.latitude + (t.latitude - p.latitude) * progress))

/-- The new previousPositions entry the ingest effect stores for one flight,
    given the (unchanged during the pass) old maps and the progress at the
    instant of ingest. Mirrors the three branches of the useEffect:
    interpolated continuation / completed target / first sighting. The else-if
    branch reproduces the JS truthiness of currentTarget.heading || fallback. -/
def ingestPrevEntry (prev : List (String × Pos)) (targets : List (String × TargetPos))
    (currentProgress : ℚ) (f : FrontFlight) : Pos :=
  match jsMapGet targets f.icao24, jsMapGet prev f.icao24 with
  | some ct, some pp =>
      if currentProgress < 1 then lerpPos pp ct currentProgress
      else
        { longitude := ct.longitude, latitude := ct.latitude,
          heading := if ct.heading = 0 then f.true_track.getD 0 else ct.heading }
  | some ct, none =>
      { longitude := ct.longitude, latitude := ct.latitude,
        heading := if ct.heading = 0 then f.true_track.getD 0 else ct.heading }
  | none, _ =>
      { longitude := f.longitude, latitude := f.latitude,
        heading := f.true_track.getD 0 }

/-- The snapshot-ingest useEffect (part_001 lines 1292-1359): walks
    validFlights once, building newPreviousPositions from the currently
    rendered interpolated state and newTargetPositions from the incoming
    snapshots, then resets the interpolation clock to the ingest time. -/
def ingest (prev : List (String × Pos)) (targets : List (String × TargetPos))
    (startTime : Option ℚ) (validFlights : List FrontFlight) (now : ℚ) :
    List (String × Pos) × List (String × TargetPos) × ℚ :=
  let currentProgress := progressAt startTime now
  let maps := validFlights.foldl
    (fun acc f =>
      (jsMapSet acc.1 f.icao24 (ingestPrevEntry prev targets currentProgress f),
       jsMapSet acc.2 f.icao24 (mkTargetPos f)))
    ([], [])
  (maps.1, maps.2, now)

/-! ## Backend worker model (src/backend/worker.js)
    Raw OpenSky state vectors, processFlightData, generateSampleFlightData
    and the retry loop of fetchFlightData. Presentation-only fields that no
    code path reads (sensors, squawk, spi, position_source, the _source tag)
    are omitted. -/

/-- A raw upstream state vector (indices 0-17 of an OpenSky states row, named
    after the fields processFlightData assigns them to). -/
structure RawState where
  icao24 : String
  callsign : Option String
  origin_country : Option String
  time_position : Option ℤ
  last_contact : Option ℤ
  longitude : Option ℚ
  latitude : Option ℚ
  baro_altitude : Option ℚ
  on_ground : Option Bool
  velocity : Option ℚ
  true_track : Option ℚ
  vertical_rate : Option ℚ
  geo_altitude : Option ℚ
  category : Option ℕ
deriving DecidableEq

/-- JS truthiness of a nullable number: null and 0 are falsy. -/
def qTruthy : Option ℚ → Bool
  | none => false
  | some x => decide (x ≠ 0)

/-- JS a || b on a nullable number a. -/
def jsOrQ (a : Option ℚ) (b : ℚ) : ℚ :=
  match a with
  | some x => if x = 0 then b else x
  | none => b

/-- JS a || b on a nullable natural number a. -/
def jsOrN (a : Option ℕ) (b : ℕ) : ℕ :=
  match a with
  | some x => if x = 0 then b else x
  | none => b

/-- The pre-filter of processFlightData: drop grounded aircraft, aircraft
    with (state[7] || state[13] || 0) < 100, aircraft with a non-null
    velocity below 50, and aircraft without truthy coordinates. -/
def keepState (s : RawState) : Bool :=
  if s.on_ground = some true then false
  else if jsOrQ s.baro_altitude (jsOrQ s.geo_altitude 0) < 100 then false
  else if (match s.velocity with | some v => decide (v < 50) | none => false) then false
  else if !(qTruthy s.longitude && qTruthy s.latitude) then false
  else true

/-- The aircraft category description table of getAircraftType. -/
def getAircraftType (category : ℕ) : String :=
  match category with
  | 0 => "Unknown"
  | 1 => "No ADS-B Info"
  | 2 => "Light (< 15,500 lbs)"
  | 3 => "Small (15,500 - 75,000 lbs)"
  | 4 => "Large (75,000 - 300,000 lbs)"
  | 5 => "High Vortex Large (B-757)"
  | 6 => "Heavy (> 300,000 lbs)"
  | 7 => "High Performance (> 5g, 400 kts)"
  | 8 => "Rotorcraft"
  | 9 => "Glider/Sailplane"
  | 10 => "Lighter-than-air"
  | 11 => "Parachutist/Skydiver"
  | 12 => "Ultralight/Hang-glider"
  | 13 => "Reserved"
  | 14 => "UAV/Drone"
  | 15 => "Space Vehicle"
  | 16 => "Emergency Vehicle"
  | 17 => "Service Vehicle"
  | 18 => "Point Obstacle"
  | 19 => "Cluster Obstacle"
  | 20 => "Line Obstacle"
  | _ => "Unknown"

/-- A processed flight record as built by the map of processFlightData. -/
structure ProcFlight where
  icao24 : String
  callsign : Option String
  origin_country : Option String
  time_position : Option ℤ
  last_contact : Option ℤ
  longitude : Option ℚ
  latitude : Option ℚ
  baro_altitude : Option ℚ
  on_ground : Option Bool
  velocity : Option ℚ
  true_track : Option ℚ
  vertical_rate : Option ℚ
  geo_altitude : Option ℚ
  category : ℕ
  heading : ℚ
  altitude_ft : Option ℤ
  speed_kts : Option ℤ
  speed_mph : Option ℤ
  aircraft_type : String
deriving DecidableEq

/-- The field mapping of processFlightData (state index -> named field, with
    the computed convenience fields). -/
def toProcFlight (s : RawState) : ProcFlight :=
  { icao24 := s.icao24,
    callsign := match s.callsign with
      | some c => if c = "" then none else some c.trim
      | none => none,
    origin_country := s.origin_country,
    time_position := s.time_position,
    last_contact := s.last_contact,
    longitude := s.longitude,
    latitude := s.latitude,
    baro_altitude := s.baro_altitude,
    on_ground := s.on_ground,
    velocity := s.velocity,
    true_track := s.true_track,
    vertical_rate := s.vertical_rate,
    geo_altitude := s.geo_altitude,
    category := jsOrN s.category 0,
    heading := jsOrQ s.true_track 0,
    altitude_ft := if qTruthy s.baro_altitude then
        some (jsRound ((s.baro_altitude.getD 0) * 3.28084)) else none,
    speed_kts := if qTruthy s.velocity then
        some (jsRound ((s.velocity.getD 0) * 1.94384)) else none,
    speed_mph := if qTruthy s.velocity then
        some (jsRound ((s.velocity.getD 0) * 2.23694)) else none,
    aircraft_type := getAircraftType (jsOrN s.category 0) }

/-- The parsed upstream payload handed to processFlightData (the _fallback
    and _message tags default to false / null when absent). -/
structure FlightData where
  states : List RawState
  fallback : Bool
  message : Option String

/-- The JSON body of a 200 response from processFlightData. -/
structure ApiResponse where
  flights : List ProcFlight
  fallback : Bool
  message : Option String

/-- processFlightData: pre-filter the states, map them to named records, and
    wrap them with the propagated fallback flag and message. -/
def processFlightData (d : FlightData) : ApiResponse :=
  { flights := (d.states.filter keepState).map toProcFlight,
    fallback := d.fallback,
    message := d.message }

/-- The aircraft type / callsign-stem table of generateSampleFlightData. -/
def aircraftTypesList : List (ℕ × List String) :=
  [(2, ["N1234", "G-ABCD", "F-ABCD"]),
   (3, ["C-GABC", "N5678", "G-EFGH"]),
   (4, ["BA123", "AA456", "DL789"]),
   (6, ["LH123", "AF456", "EK789"])]

/-- The origin-country table of generateSampleFlightData. -/
def countriesList : List String :=
  ["United States", "Canada", "United Kingdom", "Germany", "France",
   "Netherlands", "Spain", "Italy"]

/-- JS Number.prototype.toString combined with padStart(3, '0'). -/
def pad3 (n : ℕ) : String :=
  let s := toString n
  String.mk (List.replicate (3 - s.length) '0') ++ s

/-- numFlights = Math.min(25, Math.floor(Math.random() * 35) + 15). The
    Math.random() stream is modelled as an explicit sequence of draws, indexed
    in the exact order the source consumes them (13 draws per flight after the
    initial count draw; the squawk draw is consumed but feeds no kept field). -/
def sampleNumFlights (rand : ℕ → ℚ) : ℕ :=
  min 25 ((⌊rand 0 * 35⌋).toNat + 15)

/-- One synthetic flight of generateSampleFlightData (loop body for index i),
    with random draws rand (1 + 13 i) .. rand (1 + 13 i + 11). -/
def sampleState (rand : ℕ → ℚ) (nowSec : ℤ) (minLat maxLat minLon maxLon : ℚ)
    (i : ℕ) : RawState :=
  let base := 1 + 13 * i
  let lat := minLat + rand base * (maxLat - minLat)
  let lon := minLon + rand (base + 1) * (maxLon - minLon)
  let ty := aircraftTypesList.getD (⌊rand (base + 2) * 4⌋).toNat
    (2, ["N1234", "G-ABCD", "F-ABCD"])
  let callsign := (ty.2.getD (⌊rand (base + 3) * 3⌋).toNat "")
    ++ pad3 (⌊rand (base + 4) * 999⌋).toNat
  let altitude : ℤ :=
    if ty.1 = 2 then ⌊rand (base + 5) * 3000⌋ + 500
    else if ty.1 = 3 then ⌊rand (base + 5) * 6000⌋ + 1000
    else ⌊rand (base + 5) * 12000⌋ + 8000
  let speed : ℤ :=
    if ty.1 = 2 then ⌊rand (base + 6) * 80⌋ + 40
    else if ty.1 = 3 then ⌊rand (base + 6) * 120⌋ + 80
    else ⌊rand (base + 6) * 200⌋ + 150
  let headingDeg : ℤ := ⌊rand (base + 7) * 360⌋
  let verticalRate : ℤ := ⌊rand (base + 8) * 15⌋ - 7
  let onGround : Bool :=
    if 4 ≤ ty.1 then decide (rand (base + 9) > 0.95) else decide (rand (base + 9) > 0.7)
  let country := countriesList.getD (⌊rand (base + 10) * 8⌋).toNat ""
  let geoAlt : ℤ := altitude + ⌊rand (base + 11) * 100⌋ - 50
  { icao24 := "SAMPLE" ++ pad3 i,
    callsign := some callsign,
    origin_country := some country,
    time_position := some nowSec,
    last_contact := some nowSec,
    longitude := some lon,
    latitude := some lat,
    baro_altitude := some (altitude : ℚ),
    on_ground := some onGround,
    velocity := some (speed : ℚ),
    true_track := some (headingDeg : ℚ),
    vertical_rate := some (verticalRate : ℚ),
    geo_altitude := some (geoAlt : ℚ),
    category := some ty.1 }

/-- generateSampleFlightData: the synthetic fallback payload, flagged
    _fallback = true, routed through processFlightData by its caller. -/
def generateSampleFlightData (rand : ℕ → ℚ) (nowSec : ℤ)
    (minLat maxLat minLon maxLon : ℚ) : FlightData :=
  { states := (List.range (sampleNumFlights rand)).map
      (sampleState rand nowSec minLat maxLat minLon maxLon),
    fallback := true,
    message := some "OpenSky API unavailable. Showing enhanced sample data for demonstration." }

/-- Math.max(-90, Math.min(90, q)). -/
def clampLat (q : ℚ) : ℚ := max (-90) (min 90 q)

/-- Math.max(-180, Math.min(180, q)). -/
def clampLon (q : ℚ) : ℚ := max (-180) (min 180 q)

/-- Math.abs. -/
def jsAbs (q : ℚ) : ℚ := if q < 0 then -q else q

/-- One network interaction of the worker: an OAuth2 token exchange against
    the auth endpoint, or a data query against the upstream states API. -/
inductive NetCall
  | auth
  | upstream
deriving DecidableEq

/-- The scripted outcome of one upstream fetch attempt: a 200 payload, a
    non-200 status, or a thrown network/timeout failure. -/
inductive UpstreamResult
  | ok (states : List RawState)
  | httpStatus (code : ℕ)
  | netFail
deriving DecidableEq

/-- The observable result of fetchFlightData (the HTTP response it builds). -/
inductive WorkerResult
  | badRequest (message hint : String)
  | tooLarge (message hint : String)
  | rateLimited (message : String)
  | badGateway (message : String)
  | failed (message : String)
  | success (resp : ApiResponse)

/-- The four bbox query parameters (present and parsed, or missing). -/
structure ReqParams where
  lat_min : Option ℚ
  lon_min : Option ℚ
  lat_max : Option ℚ
  lon_max : Option ℚ

/-- The catch handler once the retry budget is exhausted
    (retryCount >= maxRetries - 1): re-parse the raw params and fall back to
    getFallbackFlightData(lat_min, lat_max, lon_min, lon_max), else a 500. -/
def catchExhausted (rand : ℕ → ℚ) (nowSec : ℤ) (p : ReqParams)
    (acc : List NetCall) : WorkerResult × List NetCall :=
  match p.lat_min, p.lon_min, p.lat_max, p.lon_max with
  | some a, some b, some c, some d =>
      (.success (processFlightData (generateSampleFlightData rand nowSec a c b d)), acc)
  | _, _, _, _ => (.failed "Failed to fetch flight data after multiple attempts.", acc)

/-- The while (retryCount < maxRetries) loop of fetchFlightData. The fuel
    argument is maxRetries - retryCount (so the 5xx retry guard
    retryCount < maxRetries - 1 is 0 < n, and the catch-handler guard
    retryCount >= maxRetries - 1 is n = 0). Each iteration re-acquires a
    token when none is cached (the hard-coded default credentials make the
    exchange a real network call whose outcome is the auth parameter),
    validates and clamps the bbox, then performs the upstream fetch and
    dispatches on its status exactly as the source does. -/
def fetchLoop (rand : ℕ → ℚ) (nowSec : ℤ) (auth : Option String) (p : ReqParams) :
    ℕ → Option String → List UpstreamResult → List NetCall → WorkerResult × List NetCall
  | 0, _, _, acc => (.failed "retry loop exhausted", acc)
  | n + 1, tok, responses, acc =>
    let tok1 := if tok.isSome then tok else auth
    let acc1 := if tok.isSome then acc else acc ++ [NetCall.auth]
    match p.lat_min, p.lon_min, p.lat_max, p.lon_max with
    | some a, some b, some c, some d =>
        let minLat := clampLat a
        let maxLat := clampLat c
        let minLon := clampLon b
        let maxLon := clampLon d
        if jsAbs (maxLat - minLat) > 80 ∨ jsAbs (maxLon - minLon) > 80 then
          (.tooLarge "Bounding box too large. Please zoom in further."
            "Maximum allowed area is 80° x 80° degrees", acc1)
        else
          match responses with
          | [] =>
              let acc2 := acc1 ++ [NetCall.upstream]
              if n = 0 then catchExhausted rand nowSec p acc2
              else fetchLoop rand nowSec auth p n tok1 [] acc2
          | r :: rest =>
              let acc2 := acc1 ++ [NetCall.upstream]
              match r with
              | .ok states =>
                  (.success (processFlightData
                    { states := states, fallback := false, message := none }), acc2)
              | .netFail =>
                  if n = 0 then catchExhausted rand nowSec p acc2
                  else fetchLoop rand nowSec auth p n tok1 rest acc2
              | .httpStatus code =>
                  if code = 401 then
                    let acc3 := acc2 ++ [NetCall.auth]
                    match auth with
                    | some _ =>
                        match rest with
                        | r2 :: rest2 =>
                            let acc4 := acc3 ++ [NetCall.upstream]
                            match r2 with
                            | .ok states2 =>
                                (.success (processFlightData
                                  { states := states2, fallback := false, message := none }), acc4)
                            | _ =>
                                if n = 0 then catchExhausted rand nowSec p acc4
                                else fetchLoop rand nowSec auth p n auth rest2 acc4
                        | [] =>
                            let acc4 := acc3 ++ [NetCall.upstream]
                            if n = 0 then catchExhausted rand nowSec p acc4
                            else fetchLoop rand nowSec auth p n auth [] acc4
                    | none =>
                        if n = 0 then catchExhausted rand nowSec p acc3
                        else fetchLoop rand nowSec auth p n none rest acc3
                  else if code = 429 then
                    (.rateLimited "Rate limit exceeded. Please try again later.", acc2)
                  else if code = 503 then
                    (.success (processFlightData
                      (generateSampleFlightData rand nowSec minLat maxLat minLon maxLon)), acc2)
                  else if 500 ≤ code then
                    if 0 < n then fetchLoop rand nowSec auth p n tok1 rest acc2
                    else (.badGateway
                      "Upstream service temporarily unavailable. Please retry shortly.", acc2)
                  else
                    if n = 0 then catchExhausted rand nowSec p acc2
                    else fetchLoop rand nowSec auth p n tok1 rest acc2
    | _, _, _, _ =>
        (.badRequest "Bounding box required"
          "Pass lat_min, lon_min, lat_max, lon_max query params to reduce payload", acc1)

/-- fetchFlightData: run the retry loop with maxRetries = 3, the cached
    module token tok0, and an empty network trace. -/
def fetchFlightData (rand : ℕ → ℚ) (nowSec : ℤ) (auth tok0 : Option String)
    (p : ReqParams) (responses : List UpstreamResult) : WorkerResult × List NetCall :=
  fetchLoop rand nowSec auth p 3 tok0 responses []

/-! ## Tile Splitter/Cache and Viewport handling
    From src/frontend/src/App.jsx (createTiles, fetchTile, the allFlights
    merge of fetchFlights) and src/frontend/src/components/FlightMap.jsx
    (the debounced move handler). -/

/-- The bounds object {lat_min, lon_min, lat_max, lon_max}. -/
structure Bounds where
  lat_min : ℚ
  lon_min : ℚ
  lat_max : ℚ
  lon_max : ℚ
deriving DecidableEq

/-- One tile of the splitter grid. -/
structure Tile where
  lat_min : ℚ
  lat_max : ℚ
  lon_min : ℚ
  lon_max : ℚ
  index : ℕ
  total : ℕ
deriving DecidableEq

/-- createTiles: tilesX = Math.ceil(width / maxSize) columns and
    tilesY = Math.ceil(height / maxSize) rows of equal-size sub-boxes
    (tileWidth = width / tilesX, tileHeight = height / tilesY), emitted
    row-major. Negative ceilings (impossible for real viewports) clamp to
    zero iterations exactly as the JS for-loops would run zero times. -/
def createTiles (bounds : Bounds) (maxSize : ℚ) : List Tile :=
  let width := bounds.lon_max - bounds.lon_min
  let height := bounds.lat_max - bounds.lat_min
  let tilesX := (⌈width / maxSize⌉).toNat
  let tilesY := (⌈height / maxSize⌉).toNat
  let tileWidth := width / (tilesX : ℚ)
  let tileHeight := height / (tilesY : ℚ)
  (List.range tilesY).bind (fun (y : ℕ) =>
    (List.range tilesX).map (fun (x : ℕ) =>
      { lat_min := bounds.lat_min + (y : ℚ) * tileHeight,
        lat_max := bounds.lat_min + ((y : ℚ) + 1) * tileHeight,
        lon_min := bounds.lon_min + (x : ℚ) * tileWidth,
        lon_max := bounds.lon_min + ((x : ℚ) + 1) * tileWidth,
        index := (y * tilesX + x : ℕ),
        total := (tilesX * tilesY : ℕ) }))

/-- A point lies in a bounds box. -/
def memBounds (b : Bounds) (lon lat : ℚ) : Prop :=
  b.lon_min ≤ lon ∧ lon ≤ b.lon_max ∧ b.lat_min ≤ lat ∧ lat ≤ b.lat_max

/-- A point lies in a tile's box. -/
def memTile (t : Tile) (lon lat : ℚ) : Prop :=
  t.lon_min ≤ lon ∧ lon ≤ t.lon_max ∧ t.lat_min ≤ lat ∧ lat ≤ t.lat_max

/-- The per-flight validity filter applied by fetchTile and fetchFlights:
    truthy icao24 and numeric coordinates. -/
def isValidApiFlight (f : ProcFlight) : Bool :=
  decide (f.icao24 ≠ "") && f.latitude.isSome && f.longitude.isSome

/-- A tileCache entry: the filtered flights and the store timestamp. -/
structure TileCacheEntry where
  flights : List ProcFlight
  timestamp : ℚ
deriving DecidableEq

/-- The tile cache key: rounded bbox coordinates joined by commas. -/
def tileCacheKey (t : Tile) : String :=
  toString (jsRound t.lat_min) ++ "," ++ toString (jsRound t.lon_min) ++ ","
    ++ toString (jsRound t.lat_max) ++ "," ++ toString (jsRound t.lon_max)

/-- The outcome of the axios request of fetchTile: a response carrying a
    flights array, or any failure (thrown error or a body without flights). -/
inductive TileFetchOutcome
  | ok (flights : List ProcFlight)
  | err
deriving DecidableEq

/-- The tile cache TTL: 5 minutes. -/
def TILE_TTL : ℚ := 300000

/-- fetchTile: serve from tileCache when the entry is younger than the TTL,
    otherwise perform the underlying request, filter the flights, and store
    them under the key with the current timestamp. Returns the flights, the
    updated cache, and whether an underlying fetch was performed. -/
def fetchTile (cache : List (String × TileCacheEntry)) (now : ℚ) (tile : Tile)
    (res : TileFetchOutcome) : List ProcFlight × List (String × TileCacheEntry) × Bool :=
  let key := tileCacheKey tile
  let doFetch : List ProcFlight × List (String × TileCacheEntry) × Bool :=
    match res with
    | .ok fl =>
        let valid := fl.filter isValidApiFlight
        (valid, jsMapSet cache key ⟨valid, now⟩, true)
    | .err => ([], cache, true)
  match jsMapGet cache key with
  | some c => if now - c.timestamp < TILE_TTL then (c.flights, cache, false) else doFetch
  | none => doFetch

/-- The allFlights merge of fetchFlights: walk the per-tile results in order
    and set each flight into a Map keyed by icao24 (later tiles overwrite). -/
def mergeTileFlights (tileResults : List (List ProcFlight)) :
    List (String × ProcFlight) :=
  tileResults.foldl (fun m tfl => tfl.foldl (fun m f => jsMapSet m f.icao24 f) m) []

/-- The debounce delay of the map move handler: 100 ms. -/
def MOVE_DEBOUNCE : ℚ := 100

/-- The accepted bounds-change instants produced by the debounced move
    handler: an event at time t schedules a timer at t + delay that fires
    unless a later event arrives strictly inside the window, in which case
    the pending timer is cleared (the earlier event is dropped, not queued). -/
def debounceFireTimes (events : List ℚ) (delay : ℚ) : List ℚ :=
  (events.filter (fun t =>
    !(events.any (fun u => decide (t < u) && decide (u < t + delay))))).map
    (fun t => t + delay)

/-- Number of tile columns: Math.ceil(width / maxSize). -/
def tilesCountX (b : Bounds) (cap : ℚ) : ℕ := (⌈(b.lon_max - b.lon_min) / cap⌉).toNat

/-- Number of tile rows: Math.ceil(height / maxSize). -/
def tilesCountY (b : Bounds) (cap : ℚ) : ℕ := (⌈(b.lat_max - b.lat_min) / cap⌉).toNat

/-- tileWidth = width / tilesX. -/
def tileW (b : Bounds) (cap : ℚ) : ℚ :=
  (b.lon_max - b.lon_min) / (tilesCountX b cap : ℚ)

/-- tileHeight = height / tilesY. -/
def tileH (b : Bounds) (cap : ℚ) : ℚ :=
  (b.lat_max - b.lat_min) / (tilesCountY b cap : ℚ)

/-- The tile emitted by createTiles for grid cell (x, y). -/
def mkTile (b : Bounds) (cap : ℚ) (y x : ℕ) : Tile :=
  { lat_min := b.lat_min + (y : ℚ) * tileH b cap,
    lat_max := b.lat_min + ((y : ℚ) + 1) * tileH b cap,
    lon_min := b.lon_min + (x : ℚ) * tileW b cap,
    lon_max := b.lon_min + ((x : ℚ) + 1) * tileW b cap,
    index := y * tilesCountX b cap + x,
    total := tilesCountX b cap * tilesCountY b cap }

/-- A concrete airborne upstream record that survives the pre-filter. -/
def goodState : RawState :=
  ⟨"abc123", none, none, none, none, some 5, some 6, some 1000,
    some false, some 100, some 90, none, none, none⟩

/-- A concrete grounded upstream record. -/
def groundedState : RawState :=
  ⟨"def456", none, none, none, none, some 5, some 6, some 1000,
    some true, some 100, some 90, none, none, none⟩

theorem jsMapGet_set_self {α : Type} (m : List (String × α)) (k : String)
    (v : α) : jsMapGet (jsMapSet m k v) k = some v := by
  induction m with
  | nil => simp [jsMapSet, jsMapGet]
  | cons h t ih =>
      obtain ⟨k', v'⟩ := h
      by_cases hk : k' = k
      · simp [jsMapSet, jsMapGet, hk]
      · simp [jsMapSet, jsMapGet, hk, ih]

theorem jsMapGet_set_ne {α : Type} (m : List (String × α)) (k k' : String)
    (v : α) (h : k ≠ k') : jsMapGet (jsMapSet m k v) k' = jsMapGet m k' := by
  induction m with
  | nil => simp [jsMapSet, jsMapGet, h]
  | cons hd t ih =>
      obtain ⟨k₀, v₀⟩ := hd
      by_cases hk : k₀ = k
      · subst hk
        simp [jsMapSet, jsMapGet, h]
      · simp only [jsMapSet, if_neg hk]
        by_cases hk' : k₀ = k'
        · simp [jsMapGet, hk']
        · simp [jsMapGet, hk', ih]

theorem mem_jsMapSet {α : Type} (m : List (String × α)) (k : String) (v : α)
    (p : String × α) (h : p ∈ jsMapSet m k v) : p ∈ m ∨ p.1 = k := by
  induction m with
  | nil =>
      simp only [jsMapSet, List.mem_singleton] at h
      exact Or.inr (by rw [h])
  | cons hd t ih =>
      obtain ⟨k₀, v₀⟩ := hd
      by_cases hk : k₀ = k
      · simp only [jsMapSet, if_pos hk, List.mem_cons] at h
        rcases h with h | h
        · exact Or.inr (by rw [h])
        · exact Or.inl (List.mem_cons_of_mem _ h)
      · simp only [jsMapSet, if_neg hk, List.mem_cons] at h
        rcases h with h | h
        · exact Or.inl (List.mem_cons.2 (Or.inl h))
        · rcases ih h with h' | h'
          · exact Or.inl (List.mem_cons_of_mem _ h')
          · exact Or.inr h'

theorem keysNodup_jsMapSet {α : Type} (m : List (String × α)) (k : String)
    (v : α) (h : (m.map Prod.fst).Nodup) :
    ((jsMapSet m k v).map Prod.fst).Nodup := by
  induction m with
  | nil => simp [jsMapSet]
  | cons hd t ih =>
      obtain ⟨k₀, v₀⟩ := hd
      simp only [List.map_cons, List.nodup_cons] at h
      by_cases hk : k₀ = k
      · subst hk
        simpa [jsMapSet] using h
      · simp only [jsMapSet, if_neg hk, List.map_cons, List.nodup_cons]
        refine ⟨?_, ih h.2⟩
        intro hmem
        rcases List.mem_map.1 hmem with ⟨⟨k₁, v₁⟩, hmem₁, hfst⟩
        rcases mem_jsMapSet t k v _ hmem₁ with h₂ | h₂
        · exact h.1 (hfst ▸ List.mem_map_of_mem Prod.fst h₂)
        · exact hk (hfst ▸ h₂)

/-! ## Generic lemmas about folds that set map keys -/

theorem foldl_set_pair_split {α₁ α₂ β : Type} (key : β → String)
    (g₁ : β → α₁) (g₂ : β → α₂) (l : List β)
    (a : List (String × α₁)) (b : List (String × α₂)) :
    l.foldl (fun acc f => (jsMapSet acc.1 (key f) (g₁ f), jsMapSet acc.2 (key f) (g₂ f))) (a, b)
      = (l.foldl (fun m f => jsMapSet m (key f) (g₁ f)) a,
         l.foldl (fun m f => jsMapSet m (key f) (g₂ f)) b) := by
  induction l generalizing a b with
  | nil => rfl
  | cons x xs ih => simpa using ih _ _

theorem jsMapGet_foldl_set_of_not_mem {α β : Type} (key : β → String)
    (g : β → α) (l : List β) (m : List (String × α)) (k : String)
    (hk : k ∉ l.map key) :
    jsMapGet (l.foldl (fun m x => jsMapSet m (key x) (g x)) m) k = jsMapGet m k := by
  induction l generalizing m with
  | nil => rfl
  | cons x xs ih =>
      simp only [List.map_cons, List.mem_cons, not_or] at hk
      simpa [jsMapGet_set_ne m (key x) k (g x) (fun h => hk.1 h.symm)] using
        ih (jsMapSet m (key x) (g x)) hk.2

theorem jsMapGet_foldl_set_mem {α β : Type} (key : β → String)
    (g : β → α) (l : List β) (m : List (String × α)) (b : β)
    (hb : b ∈ l) (hnd : (l.map key).Nodup) :
    jsMapGet (l.foldl (fun m x => jsMapSet m (key x) (g x)) m) (key b) = some (g b) := by
  induction l generalizing m with
  | nil => cases hb
  | cons x xs ih =>
      simp only [List.map_cons, List.nodup_cons] at hnd
      rcases List.mem_cons.1 hb with hbx | hbx
      · subst hbx
        rw [List.foldl_cons,
          jsMapGet_foldl_set_of_not_mem key g xs _ (key b) hnd.1]
        exact jsMapGet_set_self m (key b) (g b)
      · rw [List.foldl_cons]
        exact ih _ hbx hnd.2

/-! ## Claim theorems: interpolation engine -/

/-- Claim C1. For every entity present in two consecutive ingested snapshot
    sets, if the second ingest occurs while the entity's interpolation is
    still in progress (progress < 1), the ingest effect stores as the new
    previous entry exactly the interpolated position and heading computed at
    the instant of ingest from the existing previous/target entries and the
    interpolation clock (lerpPos, never the old target snapshot), makes the
    incoming snapshot the new target, and resets the interpolation clock to
    the ingest time. -/
theorem ingest_forward_only
    (prev : List (String × Pos)) (targets : List (String × TargetPos))
    (startTime : Option ℚ) (validFlights : List FrontFlight) (now : ℚ)
    (f : FrontFlight) (pp : Pos) (ct : TargetPos)
    (hmem : f ∈ validFlights)
    (hnd : (validFlights.map FrontFlight.icao24).Nodup)
    (hp : jsMapGet prev f.icao24 = some pp)
    (ht : jsMapGet targets f.icao24 = some ct)
    (hprog : progressAt startTime now < 1) :
    jsMapGet (ingest prev targets startTime validFlights now).1 f.icao24
      = some (lerpPos pp ct (progressAt startTime now)) ∧
    jsMapGet (ingest prev targets startTime validFlights now).2.1 f.icao24
      = some (mkTargetPos f) ∧
    (ingest prev targets startTime validFlights now).2.2 = now := by
  simp only [ingest]
  rw [foldl_set_pair_split FrontFlight.icao24
    (ingestPrevEntry prev targets (progressAt startTime now)) mkTargetPos]
  refine ⟨?_, ?_, trivial⟩
  · rw [jsMapGet_foldl_set_mem FrontFlight.icao24 _ validFlights [] f hmem hnd]
    simp [ingestPrevEntry, hp, ht, if_pos hprog]
  · exact jsMapGet_foldl_set_mem FrontFlight.icao24 _ validFlights [] f hmem hnd

/-- Witness for ingest_forward_only at a concrete two-ingest state. -/
theorem ingest_forward_only_witness :
    ((⟨"a1", 20, 20, some 100, 100⟩ : FrontFlight) ∈
        [(⟨"a1", 20, 20, some 100, 100⟩ : FrontFlight)]) ∧
    (([(⟨"a1", 20, 20, some 100, 100⟩ : FrontFlight)].map FrontFlight.icao24).Nodup) ∧
    jsMapGet [("a1", (⟨0, 0, 0⟩ : Pos))] "a1" = some (⟨0, 0, 0⟩ : Pos) ∧
    jsMapGet [("a1", (⟨"a1", 10, 10, some 90, 90⟩ : TargetPos))] "a1"
      = some (⟨"a1", 10, 10, some 90, 90⟩ : TargetPos) ∧
    progressAt (some 0) 7500 < 1 ∧
    (jsMapGet (ingest [("a1", ⟨0, 0, 0⟩)] [("a1", ⟨"a1", 10, 10, some 90, 90⟩)]
        (some 0) [⟨"a1", 20, 20, some 100, 100⟩] 7500).1 "a1"
      = some (lerpPos ⟨0, 0, 0⟩ ⟨"a1", 10, 10, some 90, 90⟩
          (progressAt (some 0) 7500)) ∧
    jsMapGet (ingest [("a1", ⟨0, 0, 0⟩)] [("a1", ⟨"a1", 10, 10, some 90, 90⟩)]
        (some 0) [⟨"a1", 20, 20, some 100, 100⟩] 7500).2.1 "a1"
      = some (mkTargetPos ⟨"a1", 20, 20, some 100, 100⟩) ∧
    (ingest [("a1", ⟨0, 0, 0⟩)] [("a1", ⟨"a1", 10, 10, some 90, 90⟩)]
        (some 0) [⟨"a1", 20, 20, some 100, 100⟩] 7500).2.2 = 7500) :=
  ⟨List.mem_singleton.2 rfl, by simp, by simp [jsMapGet], by simp [jsMapGet],
   by norm_num [progressAt, INTERPOLATION_DURATION],
   ingest_forward_only _ _ _ _ _ _ _ _ (List.mem_singleton.2 rfl) (by simp)
     (by simp [jsMapGet]) (by simp [jsMapGet])
     (by norm_num [progressAt, INTERPOLATION_DURATION])⟩

/-- Claim C4. For every entity and every render tick occurring at or after
    the interpolation start time, the interpolation progress satisfies
    0 ≤ progress ≤ 1, and whenever progress reaches 1 the animateFlights pass
    renders every entity exactly as the direct feature of its target snapshot
    (exact target position, heading derived solely from the target), with no
    extrapolation beyond it. -/
theorem animate_progress_bounds
    (prev : List (String × Pos)) (targets : List (String × TargetPos))
    (s now : ℚ) (h : s ≤ now) :
    0 ≤ progressAt (some s) now ∧ progressAt (some s) now ≤ 1 ∧
    (progressAt (some s) now = 1 →
      animateTick prev targets (some s) now
        = targets.map (fun kv => createFeature kv.2 kv.2.longitude kv.2.latitude)) := by
  refine ⟨?_, min_le_right _ _, ?_⟩
  · refine le_min (div_nonneg ?_ (by norm_num [INTERPOLATION_DURATION])) (by norm_num)
    simpa [Option.getD] using sub_nonneg.2 h
  · intro hp
    unfold animateTick
    refine List.map_congr_left ?_
    intro kv _
    cases hget : jsMapGet prev kv.1 with
    | none => rfl
    | some p => simp [hp]

/-- Witness for animate_progress_bounds at a concrete completed interval. -/
theorem animate_progress_bounds_witness :
    ((0 : ℚ) ≤ 15000) ∧
    (0 ≤ progressAt (some 0) 15000 ∧ progressAt (some 0) 15000 ≤ 1 ∧
      (progressAt (some 0) 15000 = 1 →
        animateTick [("a1", ⟨0, 0, 0⟩)] [("a1", ⟨"a1", 10, 10, some 90, 90⟩)]
            (some 0) 15000
          = [("a1", (⟨"a1", 10, 10, some 90, 90⟩ : TargetPos))].map
              (fun kv => createFeature kv.2 kv.2.longitude kv.2.latitude))) :=
  ⟨by norm_num,
   animate_progress_bounds [("a1", ⟨0, 0, 0⟩)]
     [("a1", ⟨"a1", 10, 10, some 90, 90⟩)] 0 15000 (by norm_num)⟩

/-- Counterexample to claim C5 as stated: the interpolated heading for
    previous 350 and target 10 at progress one-half is 360, which is not
    normalized back into the interval [0, 360) — the code has no final
    normalization step. -/
theorem heading_no_final_normalization :
    interpolateHeading 350 10 (1 / 2) = 360 ∧
    ¬ interpolateHeading 350 10 (1 / 2) < 360 := by
  norm_num [interpolateHeading, normalizeHeadingDiff]

/-- Claim C5 as amended. The render routine interpolates heading by
    normalizing diff = target − previous into [−180, 180] (adding or
    subtracting 360 as needed) and computing previous + diff * progress,
    with no final normalization into [0, 360); in particular for previous
    350 and target 10 at progress one-half the result is 360 — equal to 0
    modulo 360 (shortest path), not 180. -/
theorem heading_shortest_path_amended :
    (∀ p t : ℚ, 0 ≤ p → p < 360 → 0 ≤ t → t < 360 →
      -180 ≤ normalizeHeadingDiff (t - p) ∧ normalizeHeadingDiff (t - p) ≤ 180) ∧
    (∀ p t prog : ℚ,
      interpolateHeading p t prog = p + normalizeHeadingDiff (t - p) * prog) ∧
    interpolateHeading 350 10 (1 / 2) = 360 ∧
    (∃ k : ℤ, interpolateHeading 350 10 (1 / 2) - 0 = 360 * k) ∧
    interpolateHeading 350 10 (1 / 2) ≠ 180 := by
  refine ⟨?_, fun p t prog => rfl, by norm_num [interpolateHeading, normalizeHeadingDiff],
    ⟨1, by norm_num [interpolateHeading, normalizeHeadingDiff]⟩,
    by norm_num [interpolateHeading, normalizeHeadingDiff]⟩
  intro p t hp hp' ht ht'
  simp only [normalizeHeadingDiff]
  constructor
  · split_ifs <;> linarith
  · split_ifs <;> linarith

/-- Witness for heading_shortest_path_amended at concrete headings. -/
theorem heading_shortest_path_amended_witness :
    ((0 : ℚ) ≤ 40 ∧ (40 : ℚ) < 360 ∧ (0 : ℚ) ≤ 350 ∧ (350 : ℚ) < 360) ∧
    (-180 ≤ normalizeHeadingDiff ((350 : ℚ) - 40) ∧
      normalizeHeadingDiff ((350 : ℚ) - 40) ≤ 180) :=
  ⟨by norm_num,
   heading_shortest_path_amended.1 40 350 (by norm_num) (by norm_num)
     (by norm_num) (by norm_num)⟩

/-! ## Claim theorems: tile splitter -/

theorem createTiles_eq_grid (b : Bounds) (cap : ℚ) :
    createTiles b cap = (List.range (tilesCountY b cap)).bind
      (fun y => (List.range (tilesCountX b cap)).map (fun x => mkTile b cap y x)) := rfl

theorem mem_createTiles {b : Bounds} {cap : ℚ} {t : Tile} :
    t ∈ createTiles b cap ↔
      ∃ y x : ℕ, y < tilesCountY b cap ∧ x < tilesCountX b cap ∧
        t = mkTile b cap y x := by
  rw [createTiles_eq_grid]
  constructor
  · intro h
    rcases List.mem_bind.1 h with ⟨y, hy, hmem⟩
    rcases List.mem_map.1 hmem with ⟨x, hx, rfl⟩
    exact ⟨y, x, List.mem_range.1 hy, List.mem_range.1 hx, rfl⟩
  · rintro ⟨y, x, hy, hx, rfl⟩
    exact List.mem_bind.2 ⟨y, List.mem_range.2 hy, List.mem_map.2 ⟨x, List.mem_range.2 hx, rfl⟩⟩

theorem range_map_const_sum (m k : ℕ) :
    ((List.range m).map (fun _ => k)).sum = m * k := by
  induction m with
  | zero => simp
  | succ n ih =>
      rw [List.range_succ]
      simp [ih, Nat.succ_mul]

theorem tileCover1D (n : ℕ) (tw : ℚ) (hn : 1 ≤ n) (htw : 0 < tw) (c : ℚ)
    (hc0 : 0 ≤ c) (hcw : c ≤ (n : ℚ) * tw) :
    ∃ x : ℕ, x < n ∧ (x : ℚ) * tw ≤ c ∧ c ≤ ((x : ℚ) + 1) * tw := by
  have hj0 : 0 ≤ ⌊c / tw⌋ := Int.floor_nonneg.2 (div_nonneg hc0 htw.le)
  have hfl : (⌊c / tw⌋ : ℚ) * tw ≤ c := by
    calc (⌊c / tw⌋ : ℚ) * tw ≤ (c / tw) * tw :=
          mul_le_mul_of_nonneg_right (Int.floor_le (c / tw)) htw.le
      _ = c := div_mul_cancel₀ c (ne_of_gt htw)
  have hfu : c < ((⌊c / tw⌋ : ℚ) + 1) * tw := by
    calc c = (c / tw) * tw := (div_mul_cancel₀ c (ne_of_gt htw)).symm
      _ < ((⌊c / tw⌋ : ℚ) + 1) * tw := by
          refine mul_lt_mul_of_pos_right ?_ htw
          exact_mod_cast Int.lt_floor_add_one (c / tw)
  have hcast : ((⌊c / tw⌋.toNat : ℕ) : ℚ) = (⌊c / tw⌋ : ℚ) := by
    exact_mod_cast Int.toNat_of_nonneg hj0
  by_cases hjn : ⌊c / tw⌋.toNat < n
  · exact ⟨⌊c / tw⌋.toNat, hjn, by rw [hcast]; exact hfl,
      le_of_lt (by rw [hcast]; exact hfu)⟩
  · have hnj : (n : ℚ) ≤ (⌊c / tw⌋ : ℚ) := by
      have : (n : ℤ) ≤ ⌊c / tw⌋ := by omega
      exact_mod_cast this
    have hceq : c = (n : ℚ) * tw :=
      le_antisymm hcw (le_trans (mul_le_mul_of_nonneg_right hnj htw.le) hfl)
    have hsub : (((n - 1 : ℕ)) : ℚ) = (n : ℚ) - 1 := by
      push_cast [Nat.cast_sub hn]
      ring
    refine ⟨n - 1, by omega, ?_, ?_⟩
    · rw [hsub, hceq]
      nlinarith
    · rw [hsub, hceq]
      nlinarith

/-- Counterexample to claim C6 as stated: the degenerate bounding box with
    width 100 (exceeding the cap 55) and height 0 is split into zero tiles
    (Math.ceil(0 / 55) = 0 rows), so the union of the produced tiles does not
    cover the box: the point (lon 50, lat 0) lies in the box but in no tile. -/
theorem createTiles_degenerate_counterexample :
    ((100 : ℚ) - 0 > 55) ∧ createTiles ⟨0, 0, 0, 100⟩ 55 = [] ∧
      memBounds ⟨0, 0, 0, 100⟩ 50 0 ∧
      ¬ ∃ t ∈ createTiles ⟨0, 0, 0, 100⟩ 55, memTile t 50 0 := by
  refine ⟨by norm_num, by simp [createTiles], by norm_num [memBounds], ?_⟩
  simp [createTiles]

/-- Claim C6 as amended. For every bounding box whose width or height exceeds
    the per-query cap, provided both dimensions are positive (the splitter
    emits zero tiles for a degenerate zero-or-negative dimension), createTiles
    partitions it into a grid of ceil(width / cap) x ceil(height / cap) tiles
    (tilesCountX and tilesCountY are those ceilings), every produced tile has
    width and height at most the cap, and the union of the tiles exactly
    covers the original box. -/
theorem createTiles_grid_cover (b : Bounds) (cap : ℚ) (hcap : 0 < cap)
    (hw : 0 < b.lon_max - b.lon_min) (hh : 0 < b.lat_max - b.lat_min)
    (hbig : cap < b.lon_max - b.lon_min ∨ cap < b.lat_max - b.lat_min) :
    (createTiles b cap).length = tilesCountX b cap * tilesCountY b cap ∧
    (∀ t ∈ createTiles b cap,
      t.lon_max - t.lon_min ≤ cap ∧ t.lat_max - t.lat_min ≤ cap) ∧
    (∀ lon lat : ℚ,
      memBounds b lon lat ↔ ∃ t ∈ createTiles b cap, memTile t lon lat) := by
  have hX1 : 1 ≤ tilesCountX b cap := by
    have h0 : (0 : ℤ) < ⌈(b.lon_max - b.lon_min) / cap⌉ :=
      Int.ceil_pos.2 (div_pos hw hcap)
    unfold tilesCountX
    omega
  have hY1 : 1 ≤ tilesCountY b cap := by
    have h0 : (0 : ℤ) < ⌈(b.lat_max - b.lat_min) / cap⌉ :=
      Int.ceil_pos.2 (div_pos hh hcap)
    unfold tilesCountY
    omega
  have hXQ : (0 : ℚ) < (tilesCountX b cap : ℚ) := by exact_mod_cast hX1
  have hYQ : (0 : ℚ) < (tilesCountY b cap : ℚ) := by exact_mod_cast hY1
  have htw : 0 < tileW b cap := div_pos hw hXQ
  have hth : 0 < tileH b cap := div_pos hh hYQ
  have hXw : (tilesCountX b cap : ℚ) * tileW b cap = b.lon_max - b.lon_min := by
    unfold tileW
    field_simp
  have hYh : (tilesCountY b cap : ℚ) * tileH b cap = b.lat_max - b.lat_min := by
    unfold tileH
    field_simp
  have hXcast : ((tilesCountX b cap : ℕ) : ℚ) = ((⌈(b.lon_max - b.lon_min) / cap⌉ : ℤ) : ℚ) := by
    unfold tilesCountX
    exact_mod_cast congrArg Int.cast
      (Int.toNat_of_nonneg (Int.ceil_nonneg (div_nonneg hw.le hcap.le)))
  have hYcast : ((tilesCountY b cap : ℕ) : ℚ) = ((⌈(b.lat_max - b.lat_min) / cap⌉ : ℤ) : ℚ) := by
    unfold tilesCountY
    exact_mod_cast congrArg Int.cast
      (Int.toNat_of_nonneg (Int.ceil_nonneg (div_nonneg hh.le hcap.le)))
  have hwcap : b.lon_max - b.lon_min ≤ cap * (tilesCountX b cap : ℚ) := by
    calc b.lon_max - b.lon_min = cap * ((b.lon_max - b.lon_min) / cap) := by
          field_simp
      _ ≤ cap * ((⌈(b.lon_max - b.lon_min) / cap⌉ : ℤ) : ℚ) :=
          mul_le_mul_of_nonneg_left (Int.le_ceil _) hcap.le
      _ = cap * (tilesCountX b cap : ℚ) := by rw [hXcast]
  have hhcap : b.lat_max - b.lat_min ≤ cap * (tilesCountY b cap : ℚ) := by
    calc b.lat_max - b.lat_min = cap * ((b.lat_max - b.lat_min) / cap) := by
          field_simp
      _ ≤ cap * ((⌈(b.lat_max - b.lat_min) / cap⌉ : ℤ) : ℚ) :=
          mul_le_mul_of_nonneg_left (Int.le_ceil _) hcap.le
      _ = cap * (tilesCountY b cap : ℚ) := by rw [hYcast]
  have htwcap : tileW b cap ≤ cap := by
    unfold tileW
    rw [div_le_iff hXQ]
    exact hwcap
  have hthcap : tileH b cap ≤ cap := by
    unfold tileH
    rw [div_le_iff hYQ]
    exact hhcap
  refine ⟨?_, ?_, ?_⟩
  · rw [createTiles_eq_grid, List.length_bind]
    simp only [Function.comp_def, List.length_map, List.length_range]
    rw [range_map_const_sum]
    exact Nat.mul_comm _ _
  · intro t ht
    rcases mem_createTiles.1 ht with ⟨y, x, hy, hx, rfl⟩
    constructor
    · have hdim : (mkTile b cap y x).lon_max - (mkTile b cap y x).lon_min
          = tileW b cap := by
        simp only [mkTile]
        ring
      rw [hdim]
      exact htwcap
    · have hdim : (mkTile b cap y x).lat_max - (mkTile b cap y x).lat_min
          = tileH b cap := by
        simp only [mkTile]
        ring
      rw [hdim]
      exact hthcap
  · intro lon lat
    constructor
    · rintro ⟨h1, h2, h3, h4⟩
      obtain ⟨x, hx, hx1, hx2⟩ := tileCover1D (tilesCountX b cap) (tileW b cap)
        hX1 htw (lon - b.lon_min) (by linarith) (by rw [hXw]; linarith)
      obtain ⟨y, hy, hy1, hy2⟩ := tileCover1D (tilesCountY b cap) (tileH b cap)
        hY1 hth (lat - b.lat_min) (by linarith) (by rw [hYh]; linarith)
      refine ⟨mkTile b cap y x, mem_createTiles.2 ⟨y, x, hy, hx, rfl⟩, ?_⟩
      simp only [memTile, mkTile]
      refine ⟨by linarith, by nlinarith, by linarith, by nlinarith⟩
    · rintro ⟨t, ht, hm⟩
      rcases mem_createTiles.1 ht with ⟨y, x, hy, hx, rfl⟩
      simp only [memTile, mkTile] at hm
      obtain ⟨m1, m2, m3, m4⟩ := hm
      have hx1 : ((x : ℚ) + 1) * tileW b cap ≤ (tilesCountX b cap : ℚ) * tileW b cap := by
        refine mul_le_mul_of_nonneg_right ?_ htw.le
        exact_mod_cast Nat.succ_le_of_lt hx
      have hy1 : ((y : ℚ) + 1) * tileH b cap ≤ (tilesCountY b cap : ℚ) * tileH b cap := by
        refine mul_le_mul_of_nonneg_right ?_ hth.le
        exact_mod_cast Nat.succ_le_of_lt hy
      have hx0 : 0 ≤ (x : ℚ) * tileW b cap :=
        mul_nonneg (by exact_mod_cast Nat.zero_le x) htw.le
      have hy0 : 0 ≤ (y : ℚ) * tileH b cap :=
        mul_nonneg (by exact_mod_cast Nat.zero_le y) hth.le
      rw [hXw] at hx1
      rw [hYh] at hy1
      exact ⟨by linarith, by linarith, by linarith, by linarith⟩

/-! ## Claim theorems: multi-tile merge and tile cache -/

theorem keysNodup_foldl_set {α β : Type} (key : β → String) (g : β → α)
    (l : List β) (m : List (String × α)) (h : (m.map Prod.fst).Nodup) :
    ((l.foldl (fun m x => jsMapSet m (key x) (g x)) m).map Prod.fst).Nodup := by
  induction l generalizing m with
  | nil => exact h
  | cons x xs ih =>
      rw [List.foldl_cons]
      exact ih _ (keysNodup_jsMapSet m (key x) (g x) h)

theorem jsMapGet_foldl_flights (l : List ProcFlight)
    (m : List (String × ProcFlight)) (k : String) :
    jsMapGet (l.foldl (fun m f => jsMapSet m f.icao24 f) m) k
      = (match l.reverse.find? (fun f => f.icao24 == k) with
         | some v => some v
         | none => jsMapGet m k) := by
  induction l generalizing m with
  | nil => rfl
  | cons x xs ih =>
      rw [List.foldl_cons, ih]
      cases hfind : xs.reverse.find? (fun f => f.icao24 == k) with
      | some v =>
          have hxv : (x :: xs).reverse.find? (fun f => f.icao24 == k) = some v := by
            rw [List.reverse_cons, List.find?_append, hfind]
            rfl
          rw [hxv]
      | none =>
          rw [List.reverse_cons, List.find?_append, hfind]
          by_cases hk : x.icao24 = k
          · have hfx : ([x].find? (fun f => f.icao24 == k)) = some x := by
              simp [List.find?, beq_iff_eq, hk]
            simp only [Option.none_orElse, hfx]
            rw [← hk]
            exact jsMapGet_set_self m x.icao24 x
          · have hfx : ([x].find? (fun f => f.icao24 == k)) = none := by
              simp only [List.find?]
              rw [beq_eq_false_iff_ne.2 hk]
            simp only [Option.none_orElse, hfx]
            exact jsMapGet_set_ne m x.icao24 k x hk

theorem mergeTileFlights_eq_join (tileResults : List (List ProcFlight)) :
    mergeTileFlights tileResults
      = tileResults.join.foldl (fun m f => jsMapSet m f.icao24 f) [] := by
  unfold mergeTileFlights
  rw [List.foldl_join]

/-- Claim C7. A merged multi-tile result contains at most one record per
    entity identity (the merged map's keys are pairwise distinct), and the
    record stored under an identity is the last one reported across the
    tile results in order (the first match in the reversed concatenation),
    so on duplicates the last tile to report wins. -/
theorem merge_dedup_last_wins (tileResults : List (List ProcFlight)) :
    ((mergeTileFlights tileResults).map Prod.fst).Nodup ∧
    ∀ k : String,
      jsMapGet (mergeTileFlights tileResults) k
        = (tileResults.join.reverse.find? (fun f => f.icao24 == k)) := by
  rw [mergeTileFlights_eq_join]
  constructor
  · exact keysNodup_foldl_set ProcFlight.icao24 id tileResults.join [] (by simp)
  · intro k
    rw [jsMapGet_foldl_flights tileResults.join [] k]
    cases hfind : tileResults.join.reverse.find? (fun f => f.icao24 == k) <;>
      simp [hfind, jsMapGet]

/-- Claim C8. Two fetchTile calls for the identical tile within the TTL
    window perform exactly one underlying request: the first (cache miss,
    successful response) fetches and stores, the second is served from the
    tile cache and returns the same flights; and when the entry's age has
    reached the TTL it is treated as absent and the tile is fetched again. -/
theorem tile_cache_reuse (c0 : List (String × TileCacheEntry)) (tile : Tile)
    (t1 t2 : ℚ) (fl : List ProcFlight) (r2 : TileFetchOutcome)
    (h0 : jsMapGet c0 (tileCacheKey tile) = none) :
    (fetchTile c0 t1 tile (.ok fl)).2.2 = true ∧
    (t2 - t1 < TILE_TTL →
      (fetchTile (fetchTile c0 t1 tile (.ok fl)).2.1 t2 tile r2).2.2 = false ∧
      (fetchTile (fetchTile c0 t1 tile (.ok fl)).2.1 t2 tile r2).1
        = (fetchTile c0 t1 tile (.ok fl)).1) ∧
    (TILE_TTL ≤ t2 - t1 →
      (fetchTile (fetchTile c0 t1 tile (.ok fl)).2.1 t2 tile r2).2.2 = true) := by
  have hkey := jsMapGet_set_self c0 (tileCacheKey tile)
    (⟨fl.filter isValidApiFlight, t1⟩ : TileCacheEntry)
  refine ⟨by simp [fetchTile, h0], ?_, ?_⟩
  · intro h
    constructor <;> simp [fetchTile, h0, hkey, h]
  · intro h
    have hnot : ¬ t2 - t1 < TILE_TTL := not_lt.2 h
    cases r2 <;> simp [fetchTile, h0, hkey, hnot]

/-- Witness for tile_cache_reuse on a concrete empty cache and tile. -/
theorem tile_cache_reuse_witness :
    jsMapGet ([] : List (String × TileCacheEntry))
        (tileCacheKey ⟨0, 10, 0, 10, 0, 1⟩) = none ∧
    ((fetchTile [] 0 ⟨0, 10, 0, 10, 0, 1⟩ (.ok [])).2.2 = true ∧
      ((1000 : ℚ) - 0 < TILE_TTL →
        (fetchTile (fetchTile [] 0 ⟨0, 10, 0, 10, 0, 1⟩ (.ok [])).2.1 1000
            ⟨0, 10, 0, 10, 0, 1⟩ .err).2.2 = false ∧
        (fetchTile (fetchTile [] 0 ⟨0, 10, 0, 10, 0, 1⟩ (.ok [])).2.1 1000
            ⟨0, 10, 0, 10, 0, 1⟩ .err).1
          = (fetchTile [] 0 ⟨0, 10, 0, 10, 0, 1⟩ (.ok [])).1) ∧
      (TILE_TTL ≤ (1000 : ℚ) - 0 →
        (fetchTile (fetchTile [] 0 ⟨0, 10, 0, 10, 0, 1⟩ (.ok [])).2.1 1000
            ⟨0, 10, 0, 10, 0, 1⟩ .err).2.2 = true)) :=
  ⟨rfl, tile_cache_reuse [] ⟨0, 10, 0, 10, 0, 1⟩ 0 1000 [] .err rfl⟩

/-- Witness for createTiles_grid_cover on a 100 x 10 degree box and cap 55. -/
theorem createTiles_grid_cover_witness :
    ((0 : ℚ) < 55 ∧
      (0 : ℚ) < (Bounds.mk 0 0 10 100).lon_max - (Bounds.mk 0 0 10 100).lon_min ∧
      (0 : ℚ) < (Bounds.mk 0 0 10 100).lat_max - (Bounds.mk 0 0 10 100).lat_min ∧
      (55 : ℚ) < (Bounds.mk 0 0 10 100).lon_max - (Bounds.mk 0 0 10 100).lon_min) ∧
    ((createTiles (Bounds.mk 0 0 10 100) 55).length
        = tilesCountX (Bounds.mk 0 0 10 100) 55 * tilesCountY (Bounds.mk 0 0 10 100) 55 ∧
      (∀ t ∈ createTiles (Bounds.mk 0 0 10 100) 55,
        t.lon_max - t.lon_min ≤ 55 ∧ t.lat_max - t.lat_min ≤ 55) ∧
      (∀ lon lat : ℚ, memBounds (Bounds.mk 0 0 10 100) lon lat ↔
        ∃ t ∈ createTiles (Bounds.mk 0 0 10 100) 55, memTile t lon lat)) :=
  ⟨⟨by norm_num, by norm_num, by norm_num, by norm_num⟩,
   createTiles_grid_cover (Bounds.mk 0 0 10 100) 55 (by norm_num) (by norm_num)
     (by norm_num) (Or.inl (by norm_num))⟩

/-! ## Claim theorems: viewport debounce -/

/-- An event kept by the debounce filter has no later event inside its
    window. -/
theorem debounce_noCancel_of_mem {events : List ℚ} {d t : ℚ}
    (h : t ∈ events.filter (fun t =>
      !(events.any (fun u => decide (t < u) && decide (u < t + d))))) :
    t ∈ events ∧ ∀ u ∈ events, ¬(t < u ∧ u < t + d) := by
  obtain ⟨hmem, hP⟩ := List.mem_filter.1 h
  refine ⟨hmem, ?_⟩
  intro u hu hcon
  have hany : events.any (fun u => decide (t < u) && decide (u < t + d)) = true :=
    List.any_eq_true.2 ⟨u, hu, by
      simp only [Bool.and_eq_true, decide_eq_true_eq]
      exact ⟨hcon.1, hcon.2⟩⟩
  rw [hany] at hP
  simp at hP

/-- Claim C9. The debounced move handler accepts at most one bounds change
    per debounce window: two events 50 ms apart produce exactly one accepted
    bounds change (one map-bounds-changed dispatch, hence at most one fetch
    pipeline start); any two accepted changes are at least the window apart;
    and an event superseded inside the window is dropped, never queued. -/
theorem debounce_throttle :
    debounceFireTimes [0, 50] MOVE_DEBOUNCE = [150] ∧
    (∀ (events : List ℚ) (d a b : ℚ),
      a ∈ debounceFireTimes events d → b ∈ debounceFireTimes events d →
      a < b → a + d ≤ b) ∧
    (∀ (events : List ℚ) (d t : ℚ), t ∈ events →
      (∃ u ∈ events, t < u ∧ u < t + d) →
      t + d ∉ debounceFireTimes events d) := by
  refine ⟨?_, ?_, ?_⟩
  · norm_num [debounceFireTimes, MOVE_DEBOUNCE, List.filter, List.any]
  · intro events d a b ha hb hab
    simp only [debounceFireTimes] at ha hb
    rcases List.mem_map.1 ha with ⟨ta, hta, rfl⟩
    rcases List.mem_map.1 hb with ⟨tb, htb, rfl⟩
    obtain ⟨hmemA, hPa⟩ := debounce_noCancel_of_mem hta
    obtain ⟨hmemB, _⟩ := debounce_noCancel_of_mem htb
    have htab : ta < tb := by linarith
    have hnc := hPa tb hmemB
    have : ta + d ≤ tb := by
      by_contra hlt
      push_neg at hlt
      exact hnc ⟨htab, by linarith⟩
    linarith
  · intro events d t ht hdrop hmem
    simp only [debounceFireTimes] at hmem
    rcases List.mem_map.1 hmem with ⟨s, hs, hsd⟩
    have hst : s = t := by linarith
    subst hst
    obtain ⟨_, hPs⟩ := debounce_noCancel_of_mem hs
    obtain ⟨u, hu, hu1, hu2⟩ := hdrop
    exact hPs u hu ⟨hu1, hu2⟩

/-- Witness for the quantified parts of debounce_throttle: with events at 0
    and 200 ms and window 100 ms both fire, the fire times are 100 ms apart,
    and an event followed 50 ms later by another never fires. -/
theorem debounce_throttle_witness :
    ((100 : ℚ) ∈ debounceFireTimes [0, 200] 100 ∧
      (300 : ℚ) ∈ debounceFireTimes [0, 200] 100 ∧ (100 : ℚ) < 300 ∧
      (0 : ℚ) ∈ [(0 : ℚ), 50] ∧ (50 : ℚ) ∈ [(0 : ℚ), 50] ∧
      (0 : ℚ) < 50 ∧ (50 : ℚ) < 0 + 100) ∧
    (100 : ℚ) + 100 ≤ 300 ∧
    (0 : ℚ) + 100 ∉ debounceFireTimes [(0 : ℚ), 50] 100 :=
  ⟨⟨by norm_num [debounceFireTimes, List.filter, List.any],
    by norm_num [debounceFireTimes, List.filter, List.any],
    by norm_num, by norm_num, by norm_num, by norm_num, by norm_num⟩,
   debounce_throttle.2.1 [0, 200] 100 100 300
     (by norm_num [debounceFireTimes, List.filter, List.any])
     (by norm_num [debounceFireTimes, List.filter, List.any]) (by norm_num),
   debounce_throttle.2.2 [0, 50] 100 0 (by norm_num)
     ⟨50, by norm_num, by norm_num, by norm_num⟩⟩

/-! ## Claim theorems: worker retry/fallback, area cap, response filter -/

theorem altitude_code_lt (s : RawState)
    (hb : ∀ x : ℚ, s.baro_altitude = some x → x < 100)
    (hg : ∀ x : ℚ, s.geo_altitude = some x → x < 100) :
    jsOrQ s.baro_altitude (jsOrQ s.geo_altitude 0) < 100 := by
  have hgeo : jsOrQ s.geo_altitude 0 < 100 := by
    cases hG : s.geo_altitude with
    | none => norm_num [jsOrQ]
    | some y =>
        by_cases hy : y = 0
        · simp [jsOrQ, hy]
        · simpa [jsOrQ, hy] using hg y hG
  cases hB : s.baro_altitude with
  | none => simpa [jsOrQ] using hgeo
  | some x =>
      by_cases hx : x = 0
      · simpa [jsOrQ, hx] using hgeo
      · simpa [jsOrQ, hx] using hb x hB

theorem geo_code_ge (g : Option ℚ) (h : 100 ≤ jsOrQ g 0) :
    ∃ y, g = some y ∧ 100 ≤ y := by
  cases hG : g with
  | none =>
      rw [hG] at h
      norm_num [jsOrQ] at h
  | some y =>
      by_cases hy : y = 0
      · rw [hG] at h
        simp only [jsOrQ, hy, if_pos rfl] at h
        norm_num at h
      · rw [hG] at h
        simp only [jsOrQ, if_neg hy] at h
        exact ⟨y, rfl, h⟩

theorem altitude_code_ge_cases (s : RawState)
    (h : 100 ≤ jsOrQ s.baro_altitude (jsOrQ s.geo_altitude 0)) :
    (∃ x, s.baro_altitude = some x ∧ 100 ≤ x) ∨
      (∃ x, s.geo_altitude = some x ∧ 100 ≤ x) := by
  cases hB : s.baro_altitude with
  | none =>
      rw [hB] at h
      simp only [jsOrQ] at h
      exact Or.inr (geo_code_ge s.geo_altitude h)
  | some x =>
      by_cases hx : x = 0
      · rw [hB] at h
        simp only [jsOrQ, hx, if_pos rfl] at h
        exact Or.inr (geo_code_ge s.geo_altitude h)
      · rw [hB] at h
        simp only [jsOrQ, if_neg hx] at h
        exact Or.inl ⟨x, rfl, h⟩

theorem qTruthy_ne_none {o : Option ℚ} (h : qTruthy o = true) : o ≠ none := by
  intro hn
  subst hn
  simp [qTruthy] at h

/-- Every synthetic flight drawn with a constant 0.99 random stream is a
    heavy aircraft flagged on_ground, hence dropped by the pre-filter. -/
theorem sample99_dropped (nowSec : ℤ) (minLat maxLat minLon maxLon : ℚ) (i : ℕ) :
    keepState (sampleState (fun _ => (0.99 : ℚ)) nowSec minLat maxLat minLon maxLon i)
      = false := by
  have h4 : ⌊(0.99 : ℚ) * 4⌋ = 3 := by
    rw [Int.floor_eq_iff] <;> norm_num
  have hog : (sampleState (fun _ => (0.99 : ℚ)) nowSec minLat maxLat minLon maxLon i).on_ground
      = some true := by
    simp only [sampleState, aircraftTypesList, h4]
    norm_num [List.getD]
  simp [keepState, hog]

/-- Claim C10. Every flight in a processFlightData response satisfies the
    pre-filter invariant (not on ground, barometric or geometric altitude at
    least 100 m, velocity null or at least 50 m/s, non-null coordinates);
    any upstream record violating one of those conditions is dropped by
    keepState; and the filter applies to the synthetic fallback payload as
    well: the constant-0.99 random stream generates 25 sample flights, all
    of which the filter then drops. -/
theorem response_filter_invariant :
    (∀ (d : FlightData), ∀ f ∈ (processFlightData d).flights,
      f.on_ground ≠ some true ∧
      ((∃ x, f.baro_altitude = some x ∧ 100 ≤ x) ∨
        (∃ x, f.geo_altitude = some x ∧ 100 ≤ x)) ∧
      (f.velocity = none ∨ ∃ v, f.velocity = some v ∧ 50 ≤ v) ∧
      f.longitude ≠ none ∧ f.latitude ≠ none) ∧
    (∀ s : RawState,
      (s.on_ground = some true ∨
        ((∀ x : ℚ, s.baro_altitude = some x → x < 100) ∧
          (∀ x : ℚ, s.geo_altitude = some x → x < 100)) ∨
        (∃ v, s.velocity = some v ∧ v < 50) ∨
        s.longitude = none ∨ s.latitude = none) → keepState s = false) ∧
    ((generateSampleFlightData (fun _ => (0.99 : ℚ)) 0 0 10 0 10).states.length = 25 ∧
      (processFlightData (generateSampleFlightData (fun _ => (0.99 : ℚ)) 0 0 10 0 10)).flights.length
        = 0) := by
  refine ⟨?_, ?_, ?_, ?_⟩
  · intro d f hf
    simp only [processFlightData, List.mem_map] at hf
    obtain ⟨s, hs, rfl⟩ := hf
    obtain ⟨hsmem, hkeep⟩ := List.mem_filter.1 hs
    unfold keepState at hkeep
    split_ifs at hkeep with h1 h2 h3 h4 <;> simp at hkeep
    refine ⟨?_, ?_, ?_, ?_, ?_⟩
    · simpa [toProcFlight] using h1
    · simpa [toProcFlight] using altitude_code_ge_cases s (not_lt.1 h2)
    · cases hv : s.velocity with
      | none => exact Or.inl (by simp [toProcFlight, hv])
      | some v =>
          refine Or.inr ⟨v, by simp [toProcFlight, hv], ?_⟩
          rw [hv] at h3
          simp only [decide_eq_true_eq] at h3
          exact not_lt.1 h3
    · simp only [Bool.not_eq_true', Bool.not_eq_false, Bool.and_eq_true] at h4
      simpa [toProcFlight] using qTruthy_ne_none h4.1
    · simp only [Bool.not_eq_true', Bool.not_eq_false, Bool.and_eq_true] at h4
      simpa [toProcFlight] using qTruthy_ne_none h4.2
  · intro s hviol
    unfold keepState
    split_ifs with h1 h2 h3 h4 <;> try rfl
    exfalso
    rcases hviol with hog | ⟨hb, hg⟩ | ⟨v, hv, hlt⟩ | hlon | hlat
    · exact h1 hog
    · exact h2 (altitude_code_lt s hb hg)
    · refine h3 ?_
      rw [hv]
      simpa using hlt
    · refine h4 ?_
      simp [qTruthy, hlon]
    · refine h4 ?_
      simp [qTruthy, hlat]
  · have h34 : ⌊(0.99 : ℚ) * 35⌋ = 34 := by
      rw [Int.floor_eq_iff] <;> norm_num
    simp [generateSampleFlightData, sampleNumFlights, h34]
  · have hnil : ((generateSampleFlightData (fun _ => (0.99 : ℚ)) 0 0 10 0 10).states.filter
        keepState) = [] := by
      rw [List.filter_eq_nil]
      intro a ha
      simp only [generateSampleFlightData, List.mem_map] at ha
      obtain ⟨i, _, rfl⟩ := ha
      simp [sample99_dropped]
    simp [processFlightData, hnil]

/-- Witness for response_filter_invariant: a concrete kept flight satisfies
    the invariant, and a concrete grounded record is dropped. -/
theorem response_filter_invariant_witness :
    (toProcFlight goodState ∈
      (processFlightData ⟨[goodState], false, none⟩).flights) ∧
    ((toProcFlight goodState).on_ground ≠ some true ∧
      ((∃ x, (toProcFlight goodState).baro_altitude = some x ∧ 100 ≤ x) ∨
        (∃ x, (toProcFlight goodState).geo_altitude = some x ∧ 100 ≤ x)) ∧
      ((toProcFlight goodState).velocity = none ∨
        ∃ v, (toProcFlight goodState).velocity = some v ∧ 50 ≤ v) ∧
      (toProcFlight goodState).longitude ≠ none ∧
      (toProcFlight goodState).latitude ≠ none) ∧
    (groundedState.on_ground = some true ∨
      ((∀ x : ℚ, groundedState.baro_altitude = some x → x < 100) ∧
        (∀ x : ℚ, groundedState.geo_altitude = some x → x < 100)) ∨
      (∃ v, groundedState.velocity = some v ∧ v < 50) ∨
      groundedState.longitude = none ∨ groundedState.latitude = none) ∧
    keepState groundedState = false :=
  ⟨by norm_num [processFlightData, goodState, keepState, jsOrQ, qTruthy],
   response_filter_invariant.1 ⟨[goodState], false, none⟩ (toProcFlight goodState)
     (by norm_num [processFlightData, goodState, keepState, jsOrQ, qTruthy]),
   Or.inl rfl,
   response_filter_invariant.2.1 groundedState (Or.inl rfl)⟩

/-- Counterexample to claim C2 as stated: three consecutive 500 responses
    exhaust the retry budget and fetchFlightData returns the 502 error
    response, not a 200 fallback result. -/
theorem retry_exhaustion_counterexample :
    (fetchFlightData (fun _ => 0) 0 (some "tok") (some "tok")
        ⟨some 10, some 10, some 20, some 20⟩
        [.httpStatus 500, .httpStatus 500, .httpStatus 500]).1
      = WorkerResult.badGateway
          "Upstream service temporarily unavailable. Please retry shortly." := by
  norm_num [fetchFlightData, fetchLoop, clampLat, clampLon, jsAbs]

/-- Claim C2 as amended. A 503 from the upstream provider makes
    fetchFlightData return, immediately and without consuming the retry
    budget (exactly one upstream call), a 200 result with fallback = true
    whose entity list is the synthetic sample payload for the clamped bbox
    routed through the pre-filter (so it may lose entities); any other 5xx
    on three consecutive attempts exhausts the retry budget and yields the
    502 error response instead of a fallback. -/
theorem upstream_5xx_behavior
    (rand : ℕ → ℚ) (nowSec : ℤ) (auth tok0 : Option String)
    (a b c d : ℚ) (rest : List UpstreamResult)
    (hbox : ¬(jsAbs (clampLat c - clampLat a) > 80 ∨
      jsAbs (clampLon d - clampLon b) > 80))
    (e1 e2 e3 : ℕ) (h1 : 500 ≤ e1) (h2 : 500 ≤ e2) (h3 : 500 ≤ e3)
    (n1 : e1 ≠ 503) (n2 : e2 ≠ 503) (n3 : e3 ≠ 503) :
    ((fetchFlightData rand nowSec auth tok0 ⟨some a, some b, some c, some d⟩
        (.httpStatus 503 :: rest)).1
      = .success (processFlightData (generateSampleFlightData rand nowSec
          (clampLat a) (clampLat c) (clampLon b) (clampLon d))) ∧
     (processFlightData (generateSampleFlightData rand nowSec
          (clampLat a) (clampLat c) (clampLon b) (clampLon d))).fallback = true ∧
     (fetchFlightData rand nowSec auth tok0 ⟨some a, some b, some c, some d⟩
        (.httpStatus 503 :: rest)).2.count NetCall.upstream = 1) ∧
    (fetchFlightData rand nowSec auth tok0 ⟨some a, some b, some c, some d⟩
        [.httpStatus e1, .httpStatus e2, .httpStatus e3]).1
      = .badGateway "Upstream service temporarily unavailable. Please retry shortly." := by
  have ha1 : e1 ≠ 401 := by omega
  have ha2 : e2 ≠ 401 := by omega
  have ha3 : e3 ≠ 401 := by omega
  have hr1 : e1 ≠ 429 := by omega
  have hr2 : e2 ≠ 429 := by omega
  have hr3 : e3 ≠ 429 := by omega
  refine ⟨⟨?_, ?_, ?_⟩, ?_⟩
  · norm_num [fetchFlightData, fetchLoop, hbox]
  · rfl
  · cases htok : tok0 <;>
      norm_num [fetchFlightData, fetchLoop, hbox, List.count_cons, List.count_nil] <;>
      decide
  · norm_num [fetchFlightData, fetchLoop, hbox, ha1, ha2, ha3, hr1, hr2, hr3,
      n1, n2, n3, h1, h2, h3]

/-- Witness for upstream_5xx_behavior at a concrete small bbox. -/
theorem upstream_5xx_behavior_witness :
    (¬(jsAbs (clampLat 20 - clampLat 10) > 80 ∨
        jsAbs (clampLon 20 - clampLon 10) > 80) ∧
      (500 : ℕ) ≤ 500 ∧ (500 : ℕ) ≠ 503) ∧
    (((fetchFlightData (fun _ => 0) 0 none none ⟨some 10, some 10, some 20, some 20⟩
        [.httpStatus 503]).1
      = .success (processFlightData (generateSampleFlightData (fun _ => 0) 0
          (clampLat 10) (clampLat 20) (clampLon 10) (clampLon 20))) ∧
      (processFlightData (generateSampleFlightData (fun _ => 0) 0
          (clampLat 10) (clampLat 20) (clampLon 10) (clampLon 20))).fallback = true ∧
      (fetchFlightData (fun _ => 0) 0 none none ⟨some 10, some 10, some 20, some 20⟩
        [.httpStatus 503]).2.count NetCall.upstream = 1) ∧
     (fetchFlightData (fun _ => 0) 0 none none ⟨some 10, some 10, some 20, some 20⟩
        [.httpStatus 500, .httpStatus 500, .httpStatus 500]).1
      = .badGateway "Upstream service temporarily unavailable. Please retry shortly.") :=
  ⟨⟨by norm_num [clampLat, clampLon, jsAbs], by norm_num, by norm_num⟩,
   upstream_5xx_behavior (fun _ => 0) 0 none none 10 10 20 20 []
     (by norm_num [clampLat, clampLon, jsAbs]) 500 500 500 (by norm_num)
     (by norm_num) (by norm_num) (by norm_num) (by norm_num) (by norm_num)⟩

/-- Counterexample to claim C3 as stated: with no cached token, an oversized
    (100 x 100 degree) request is rejected with the 413 response, but only
    after one auth token-exchange network call — the network trace is not
    empty. -/
theorem area_cap_counterexample :
    (fetchFlightData (fun _ => 0) 0 (some "tok") none
        ⟨some (-50), some (-50), some 50, some 50⟩ []).1
      = WorkerResult.tooLarge "Bounding box too large. Please zoom in further."
          "Maximum allowed area is 80° x 80° degrees" ∧
    (fetchFlightData (fun _ => 0) 0 (some "tok") none
        ⟨some (-50), some (-50), some 50, some 50⟩ []).2 = [NetCall.auth] := by
  constructor <;>
    norm_num [fetchFlightData, fetchLoop, clampLat, clampLon, jsAbs]

/-- Claim C3 as amended. A request whose clamped bbox exceeds 80 degrees in
    either dimension is rejected with the 413 response whose hint names the
    80-degree maximum extent, before any upstream data query (the trace
    contains zero upstream calls); however, when no token is cached the
    rejection happens after exactly one auth token-exchange network call
    (and with a cached token, after none). -/
theorem area_cap_rejection
    (rand : ℕ → ℚ) (nowSec : ℤ) (auth tok0 : Option String)
    (responses : List UpstreamResult) (a b c d : ℚ)
    (hbig : jsAbs (clampLat c - clampLat a) > 80 ∨
      jsAbs (clampLon d - clampLon b) > 80) :
    (fetchFlightData rand nowSec auth tok0 ⟨some a, some b, some c, some d⟩
        responses).1
      = .tooLarge "Bounding box too large. Please zoom in further."
          "Maximum allowed area is 80° x 80° degrees" ∧
    (fetchFlightData rand nowSec auth tok0 ⟨some a, some b, some c, some d⟩
        responses).2.count NetCall.upstream = 0 ∧
    (tok0 = none →
      (fetchFlightData rand nowSec auth tok0 ⟨some a, some b, some c, some d⟩
        responses).2 = [NetCall.auth]) ∧
    (∀ t : String, tok0 = some t →
      (fetchFlightData rand nowSec auth tok0 ⟨some a, some b, some c, some d⟩
        responses).2 = []) := by
  refine ⟨?_, ?_, ?_, ?_⟩
  · norm_num [fetchFlightData, fetchLoop, hbig]
  · cases htok : tok0 <;>
      norm_num [fetchFlightData, fetchLoop, hbig, List.count_cons, List.count_nil] <;>
      decide
  · intro h
    subst h
    norm_num [fetchFlightData, fetchLoop, hbig]
  · intro t h
    subst h
    norm_num [fetchFlightData, fetchLoop, hbig]

/-- Witness for area_cap_rejection at a concrete 100 x 100 degree request. -/
theorem area_cap_rejection_witness :
    (jsAbs (clampLat 50 - clampLat (-50)) > 80 ∨
      jsAbs (clampLon 50 - clampLon (-50)) > 80) ∧
    ((fetchFlightData (fun _ => 0) 0 (some "tok") none
        ⟨some (-50), some (-50), some 50, some 50⟩ []).1
      = .tooLarge "Bounding box too large. Please zoom in further."
          "Maximum allowed area is 80° x 80° degrees" ∧
    (fetchFlightData (fun _ => 0) 0 (some "tok") none
        ⟨some (-50), some (-50), some 50, some 50⟩ []).2.count NetCall.upstream = 0 ∧
    ((none : Option String) = none →
      (fetchFlightData (fun _ => 0) 0 (some "tok") none
        ⟨some (-50), some (-50), some 50, some 50⟩ []).2 = [NetCall.auth]) ∧
    (∀ t : String, (none : Option String) = some t →
      (fetchFlightData (fun _ => 0) 0 (some "tok") none
        ⟨some (-50), some (-50), some 50, some 50⟩ []).2 = [])) :=
  ⟨Or.inl (by norm_num [clampLat, jsAbs]),
   area_cap_rejection (fun _ => 0) 0 (some "tok") none [] (-50) (-50) 50 50
     (Or.inl (by norm_num [clampLat, jsAbs]))⟩
